import Mathlib

/-!
Verification development for the NoteGen backend note-processing pipeline.

This file gives a shallow embedding of the core of the backend:

* the OCR spatial-clustering algorithm of
  `backend/app/services/ocr_service.py`
  (`_merge_words_to_lines`, `_create_line_from_words`,
  `_merge_lines_to_blocks`, `_create_block_from_lines`);
* the classification-response parsing of
  `backend/app/services/ai_service.py` (`_step1_analyze_structure`);
* the pipeline state machine of `backend/app/api/process.py`
  (`process_note_pipeline`, `continue_processing`, `process_note`,
  `reprocess_note`, `confirm_note_type`).

Modelling conventions:

* Python `int` is embedded as `Int`; Python `float` arithmetic
  (averages, the `0.8`/`2.0` thresholds, confidences) is embedded as
  exact rational arithmetic over `ℚ`.
* Python `sorted` is a stable sort; any stable sort computes the same
  function, so it is embedded by a stable insertion sort (`pySorted`).
* External I/O (the OCR provider, the language-model client, the
  database row that is read once at the start of a request) is passed
  in as explicit arguments; a call that can raise is passed as an
  `Except` value, and Python `try/except` becomes a `match` on it.
-/

namespace NoteGen

/-! ### Python-style helpers -/

/-- Characters of `s` with leading and trailing whitespace removed:
the embedding of Python `str.strip()`. -/
def pyStripChars (l : List Char) : List Char :=
  ((l.dropWhile Char.isWhitespace).reverse.dropWhile Char.isWhitespace).reverse

/-- Embedding of Python `str.strip()` (used both for blank tests and to
trim values). -/
def pyStrip (s : String) : String :=
  ⟨pyStripChars s.data⟩

/-- Insert `x` into `l` after every element `y` with `le y x`: the
insertion step of a stable insertion sort. -/
def insertOrd (le : α → α → Bool) (x : α) : List α → List α
  | [] => [x]
  | y :: ys => if le y x then y :: insertOrd le x ys else x :: y :: ys

/-- Stable sort with respect to the total preorder `le`: the embedding
of Python `sorted` (which is stable, so the output is independent of
the sorting algorithm). -/
def pySorted (le : α → α → Bool) (l : List α) : List α :=
  l.foldl (fun acc x => insertOrd le x acc) []

/-- Minimum of a list of integers, `0` on the empty list (the callers
only apply it to non-empty lists, as Python `min` requires). -/
def pyMin : List Int → Int
  | [] => 0
  | a :: as => as.foldl min a

/-- Maximum of a list of integers, `0` on the empty list. -/
def pyMax : List Int → Int
  | [] => 0
  | a :: as => as.foldl max a

/-- Round a rational to the nearest integer, ties to even: the rounding
mode of Python's `round`. -/
def pyRoundHalfEven (q : ℚ) : ℤ :=
  let f := ⌊q⌋
  if q - f < 1/2 then f
  else if q - f > 1/2 then f + 1
  else if f % 2 = 0 then f else f + 1

/-- Embedding of Python `round(q, 3)`. -/
def pyRound3 (q : ℚ) : ℚ :=
  (pyRoundHalfEven (q * 1000) : ℚ) / 1000

/-! ### Geometry value types

`Word` mirrors the dictionaries built from the OCR provider output in
`ocr_service.py` (`{"text", "x", "y", "w", "h", "cy", "confidence"}`);
`Line` mirrors the result of `_create_line_from_words`; `Block` mirrors
the result of `_create_block_from_lines`, whose `bbox` list
`[norm_x, norm_y, norm_w, norm_h]` is represented by the four fields
`x`, `y`, `w`, `h`. -/

structure Word where
  text : String
  x : Int
  y : Int
  w : Int
  h : Int
  cy : Int
  confidence : ℚ
deriving DecidableEq, Inhabited

structure Line where
  text : String
  x : Int
  y : Int
  w : Int
  h : Int
  cy : Int
  confidence : ℚ
  word_count : Nat
deriving DecidableEq, Inhabited

structure Block where
  id : String
  x : Int
  y : Int
  w : Int
  h : Int
  text : String
  confidence : ℚ
  line_count : Nat
deriving DecidableEq, Inhabited

/-- The sort key of `_merge_words_to_lines`:
`sorted(words, key=lambda w: (w["cy"], w["x"]))`. -/
def wordKeyLe (a b : Word) : Bool :=
  if a.cy < b.cy then true
  else if a.cy = b.cy then decide (a.x ≤ b.x)
  else false

/-- The sort key of `_create_line_from_words`:
`sorted(words, key=lambda w: w["x"])`. -/
def wordXLe (a b : Word) : Bool :=
  decide (a.x ≤ b.x)

/-- The sort key of `_merge_lines_to_blocks`:
`sorted(lines, key=lambda l: l["y"])`. -/
def lineYLe (a b : Line) : Bool :=
  decide (a.y ≤ b.y)

/-- `avg_height = sum(w["h"] for w in current_line) / len(current_line)`
in `_merge_words_to_lines`. -/
def avgHeightW (g : List Word) : ℚ :=
  ((g.map fun w => (w.h : ℚ)).sum) / (g.length : ℚ)

/-- `_create_line_from_words`: sort the group by `x`, join the texts
with single spaces, take the enclosing bbox, average the confidences. -/
def createLineFromWords (ws : List Word) : Line :=
  let sortedWords := pySorted wordXLe ws
  let min_x := pyMin (sortedWords.map Word.x)
  let min_y := pyMin (sortedWords.map Word.y)
  let max_x := pyMax (sortedWords.map fun w => w.x + w.w)
  let max_y := pyMax (sortedWords.map fun w => w.y + w.h)
  { text := String.intercalate " " (sortedWords.map Word.text)
    x := min_x
    y := min_y
    w := max_x - min_x
    h := max_y - min_y
    cy := Int.fdiv (min_y + max_y) 2
    confidence := ((sortedWords.map Word.confidence).sum) / (sortedWords.length : ℚ)
    word_count := sortedWords.length }

/-- The loop of `_merge_words_to_lines`: `cur` is `current_line`
(non-empty throughout the Python loop), the second argument the words
still to be scanned.  A word joins the current group when
`abs(word["cy"] - last_word["cy"]) < avg_height * 0.8`. -/
def mergeLoopW (cur : List Word) : List Word → List Line
  | [] => [createLineFromWords cur]
  | word :: rest =>
    let last_word := cur.getLastD default
    if |(word.cy : ℚ) - (last_word.cy : ℚ)| < avgHeightW cur * (0.8 : ℚ) then
      mergeLoopW (cur ++ [word]) rest
    else
      createLineFromWords cur :: mergeLoopW [word] rest

/-- `_merge_words_to_lines`: empty input gives no lines, otherwise the
words are sorted by `(cy, x)` and scanned by `mergeLoopW` starting from
the group containing just the first word. -/
def mergeWordsToLines (words : List Word) : List Line :=
  match pySorted wordKeyLe words with
  | [] => []
  | w :: rest => mergeLoopW [w] rest

/-- `avg_height = sum(l["h"] for l in current_block) / len(current_block)`
in `_merge_lines_to_blocks`. -/
def avgHeightL (g : List Line) : ℚ :=
  ((g.map fun l => (l.h : ℚ)).sum) / (g.length : ℚ)

/-- `_create_block_from_lines`: newline-join the texts, take the
enclosing bbox, normalize it to the fixed 0–1000 space by
`int(value * 1000 / image_dimension)` (truncation toward zero, `Int.tdiv`),
round the average confidence to 3 decimals. -/
def createBlockFromLines (ls : List Line) (blockIdx : Nat)
    (imageWidth imageHeight : Int) : Block :=
  let min_x := pyMin (ls.map Line.x)
  let min_y := pyMin (ls.map Line.y)
  let max_x := pyMax (ls.map fun l => l.x + l.w)
  let max_y := pyMax (ls.map fun l => l.y + l.h)
  { id := "b" ++ toString blockIdx
    x := Int.tdiv (min_x * 1000) imageWidth
    y := Int.tdiv (min_y * 1000) imageHeight
    w := Int.tdiv ((max_x - min_x) * 1000) imageWidth
    h := Int.tdiv ((max_y - min_y) * 1000) imageHeight
    text := String.intercalate "\n" (ls.map Line.text)
    confidence := pyRound3 (((ls.map Line.confidence).sum) / (ls.length : ℚ))
    line_count := ls.length }

/-- The loop of `_merge_lines_to_blocks`: `blocks` is the accumulator of
finalized blocks (its length is the next block id), `cur` is
`current_block` (non-empty throughout the Python loop).  A line joins
the current block when
`line_gap < avg_height * 2.0 and x_diff < 100`, where
`line_gap = line["y"] - (last_line["y"] + last_line["h"])` and
`x_diff = abs(line["x"] - last_line["x"])`. -/
def mergeLoopL (imageWidth imageHeight : Int) (blocks : List Block)
    (cur : List Line) : List Line → List Block
  | [] => blocks ++ [createBlockFromLines cur blocks.length imageWidth imageHeight]
  | line :: rest =>
    let last_line := cur.getLastD default
    let line_gap : Int := line.y - (last_line.y + last_line.h)
    let x_diff : Int := |line.x - last_line.x|
    if (line_gap : ℚ) < avgHeightL cur * (2 : ℚ) ∧ x_diff < 100 then
      mergeLoopL imageWidth imageHeight blocks (cur ++ [line]) rest
    else
      mergeLoopL imageWidth imageHeight
        (blocks ++ [createBlockFromLines cur blocks.length imageWidth imageHeight])
        [line] rest

/-- `_merge_lines_to_blocks`: empty input gives no blocks, otherwise the
lines are sorted by `y` and scanned by `mergeLoopL` starting from the
block containing just the first line. -/
def mergeLinesToBlocks (lines : List Line) (imageWidth imageHeight : Int) :
    List Block :=
  match pySorted lineYLe lines with
  | [] => []
  | l :: rest => mergeLoopL imageWidth imageHeight [] [l] rest

/-- Modelled from the spec: §8 "treating each Block as a single Word
spanning its bbox" — the flattening used by the clustering-idempotence
property.  The derived centre `cy = y + h // 2` follows the convention
used for OCR words in `ocr_service.py`. -/
def blockToWord (b : Block) : Word :=
  { text := b.text
    x := b.x
    y := b.y
    w := b.w
    h := b.h
    cy := b.y + Int.fdiv b.h 2
    confidence := b.confidence }

/-! ### Classification-response parsing
(`ai_service.py`, `_step1_analyze_structure`, lines 415–436)

The step-1 call returns the message content (possibly `None`) and a
finish reason.  The code then: raises on a blank content whose finish
reason is `"length"`; returns fixed defaults (with empty `structure`)
on any other blank content; otherwise strips markdown code fences and
feeds the remainder to `json.loads`, returning the parsed dictionary on
success and, on a parse failure, the fixed defaults with the raw
response text preserved in the `structure` field. -/

/-- The dictionary shape produced by `_step1_analyze_structure` (the
`structure` key is named `structureText` here because `structure` is a
reserved word). -/
structure Step1Parsed where
  subject : String
  note_type : String
  structureText : String
  sections : List String
  grouping : String
  detected_unit : String
deriving DecidableEq, Inhabited

/-- The parse-or-fallback logic of `_step1_analyze_structure` after the
chat-completion call.  `content`/`finishReason` are
`response.choices[0].message.content` and `finish_reason`; `parse`
abstracts the composite of the markdown ```json fence extraction and
`json.loads` (opaque text processing whose only relevant property is
whether it succeeds).  An `Except.error` is a raised exception. -/
def step1ParseResponse (content : Option String) (finishReason : String)
    (parse : String → Option Step1Parsed) : Except String Step1Parsed :=
  let result := content.getD ""
  if pyStrip result = "" then
    if finishReason = "length" then
      .error "1단계 토큰 한도 초과"
    else
      .ok { subject := "other", note_type := "general", structureText := ""
            sections := [], grouping := "", detected_unit := "" }
  else
    match parse result with
    | some parsed => .ok parsed
    | none =>
      .ok { subject := "other", note_type := "general", structureText := result
            sections := [], grouping := "", detected_unit := "" }

/-! ### Pipeline state machine (`process.py`)

The `Note` model imported by `process.py` is newer than the copy of
`models/note.py` in this snapshot: `process.py` refers to
`ProcessStatus.CONFIRMATION_NEEDED`, `OrganizeMethod.ERROR_NOTE`,
`OrganizeMethod.VOCAB`, the `Subject`/`NoteType` enums and the
`detection_cache`/`detected_subject`/`detected_note_type` columns,
none of which appear in that copy.  These members are modelled from the
spec (§3, §4.6) and from their uses in `process.py`. -/

/-- Modelled from the spec: the job states of §4.6.  `UPLOADING`,
`OCR_PROCESSING`, `AI_ORGANIZING`, `COMPLETED` and `FAILED` appear in
`models/note.py`; `CONFIRMATION_NEEDED` is the pause state referenced
by `process.py`. -/
inductive ProcessStatus where
  | uploading
  | ocr_processing
  | ai_organizing
  | confirmation_needed
  | completed
  | failed
deriving DecidableEq, Inhabited

/-- Modelled from the spec: the organize methods.  `BASIC_SUMMARY` and
`CORNELL` appear in `models/note.py`; `ERROR_NOTE` and `VOCAB` are the
user-selectable methods referenced by `process.py` and
`ai_service.py`. -/
inductive OrganizeMethod where
  | basic_summary
  | cornell
  | error_note
  | vocab
deriving DecidableEq, Inhabited

/-- Modelled from the spec: the detected-subject enum referenced by
`process.py` (values as in §4.4 and `SUBJECT_NAMES`). -/
inductive Subject where
  | math
  | english
  | korean
  | history
  | social
  | science
  | other
deriving DecidableEq, Inhabited

/-- Modelled from the spec: the detected-note-type enum referenced by
`process.py` (values as in §4.4). -/
inductive NoteType where
  | general
  | error_note
  | vocab
deriving DecidableEq, Inhabited

/-- `UserPlan` from `models/user.py`. -/
inductive UserPlan where
  | free
  | basic
  | pro
deriving DecidableEq, Inhabited

/-- `Subject(value)`: `some` on a member value, `none` models the
`ValueError` raised on any other string. -/
def subjectFromString (s : String) : Option Subject :=
  if s = "math" then some .math
  else if s = "english" then some .english
  else if s = "korean" then some .korean
  else if s = "history" then some .history
  else if s = "social" then some .social
  else if s = "science" then some .science
  else if s = "other" then some .other
  else none

/-- `NoteType(value)`: `some` on a member value, `none` models the
`ValueError`. -/
def noteTypeFromString (s : String) : Option NoteType :=
  if s = "general" then some .general
  else if s = "error_note" then some .error_note
  else if s = "vocab" then some .vocab
  else none

/-- The content of the `detection_cache` JSON blob written when
processing pauses for confirmation (the checkpoint of §4.6). -/
structure Checkpoint where
  refined_text : String
  structureText : String
  curriculum_context : String
  detected_subject : String
  detected_note_type : String
  detected_unit : String
deriving DecidableEq, Inhabited

/-- The fields of the `Note` row that the pipeline reads or writes.
`ocr_metadata` is kept as an opaque serialized blob. -/
structure NoteRec where
  status : ProcessStatus
  organize_method : OrganizeMethod
  ocr_text : Option String
  ocr_metadata : Option String
  organized_content : Option String
  detection_cache : Option Checkpoint
  error_message : Option String
  progress_message : Option String
  title : String
  detected_subject : Option Subject
  detected_note_type : Option NoteType
deriving DecidableEq, Inhabited

/-- The fields of the `User` row the pipeline consults. -/
structure UserRec where
  plan : UserPlan
deriving DecidableEq, Inhabited

/-- The dictionary returned by `ai_service.detect_note_type_only`. -/
structure Detection where
  detected_subject : String
  detected_note_type : String
  detected_unit : String
  refined_text : String
  structureText : String
  curriculum_context : String
deriving DecidableEq, Inhabited

/-- The dictionary returned by `ai_service.organize_note` (used by
`reprocess_note`), after the `result.get(key, default)` reads. -/
structure OrganizeResult where
  content : String
  detected_subject : String
  detected_note_type : String
  detected_unit : String
deriving DecidableEq, Inhabited

/-- A weak concept extracted by `ai_service.extract_weak_concepts`. -/
structure WeakConcept where
  concept : String
  error_reason : String
deriving DecidableEq, Inhabited

/-- A concept card extracted by `ai_service.extract_concept_cards`. -/
structure ConceptCard where
  card_type : String
  title : String
deriving DecidableEq, Inhabited

/-- An `HTTPException(status_code, detail)`. -/
structure HttpErr where
  code : Nat
  detail : String
deriving DecidableEq, Inhabited

/-- `SUBJECT_NAMES.get(subject, "필기")` of `process.py`. -/
def subjectName (subject : String) : String :=
  if subject = "math" then "수학"
  else if subject = "korean" then "국어"
  else if subject = "english" then "영어"
  else if subject = "science" then "과학"
  else if subject = "social" then "사회"
  else if subject = "history" then "역사"
  else if subject = "other" then "필기"
  else "필기"

/-- `generate_note_title(subject, unit)`; the current date string is an
explicit argument (`datetime.now().strftime("%y/%m/%d")` in Python). -/
def generateNoteTitle (subject : String) (unit : String) (dateStr : String) :
    String :=
  if pyStrip unit = "" then
    subjectName subject ++ "," ++ dateStr
  else
    subjectName subject ++ "," ++ dateStr ++ "," ++ pyStrip unit

/-- Result of one pipeline body: the note row as left in the database,
the exception propagating out of the body (`none` if it returned
normally), and the extraction rows written to the other tables. -/
structure PipelineOutcome where
  note : NoteRec
  err : Option String
  savedWeak : List WeakConcept
  savedCards : List ConceptCard
deriving DecidableEq, Inhabited

/-- `continue_processing` (process.py lines 189–305).  The three
external calls of the body are passed as outcomes:
`gen` is `ai_service.continue_content_generation`, `weakOut` is
`ai_service.extract_weak_concepts`, `cardOut` is
`ai_service.extract_concept_cards`.  A generation failure propagates
(`err := some e`) with the note left as already committed; the two
extraction calls are wrapped in `try/except` blocks that only log, so
their failures leave the note untouched and merely skip the extra
rows. -/
def continueProcessing (note : NoteRec) (user : Option UserRec)
    (detected_subject_str : String) (detected_unit : String)
    (dateStr : String) (gen : Except String String)
    (weakOut : Except String (List WeakConcept))
    (cardOut : Except String (List ConceptCard)) : PipelineOutcome :=
  let note := { note with
    status := .ai_organizing
    progress_message := some "[2/3] AI 정리 생성 중..." }
  match gen with
  | .error e => { note := note, err := some e, savedWeak := [], savedCards := [] }
  | .ok organized_content =>
    let note := { note with
      title := generateNoteTitle detected_subject_str detected_unit dateStr
      organized_content := some organized_content
      status := .completed
      detection_cache := none }
    let savedWeak :=
      if (user.map UserRec.plan) = some .pro ∧
          note.organize_method = .error_note then
        match weakOut with
        | .ok ws => ws
        | .error _ => []
      else []
    let savedCards :=
      match cardOut with
      | .ok cs => cs
      | .error _ => []
    { note := note, err := none, savedWeak := savedWeak, savedCards := savedCards }

/-- `process_note_pipeline` (process.py lines 54–186).  `ocr` is the
outcome of `ocr_service.extract_text_from_images` (text and serialized
metadata), `detect` of `ai_service.detect_note_type_only`; the rest are
the `continue_processing` call outcomes.  The whole body runs in a
`try/except` that turns any exception into `status = FAILED` with the
message stored, so `err` is always `none` here.  The
`needs_confirmation` check is present in the source but hard-coded to
`False` ("V2까지 비활성화", lines 139–145). -/
def processNotePipeline (note : NoteRec) (user : Option UserRec)
    (dateStr : String) (ocr : Except String (String × Option String))
    (detect : Except String Detection) (gen : Except String String)
    (weakOut : Except String (List WeakConcept))
    (cardOut : Except String (List ConceptCard)) : PipelineOutcome :=
  let note := { note with status := .ocr_processing }
  match ocr with
  | .error e =>
    { note := { note with status := .failed, error_message := some e }
      err := none, savedWeak := [], savedCards := [] }
  | .ok (ocr_text, metadata_json) =>
    if pyStrip ocr_text = "" then
      let msg := "이미지에서 텍스트를 추출할 수 없습니다."
      { note := { note with status := .failed, error_message := some msg }
        err := none, savedWeak := [], savedCards := [] }
    else
      let note := { note with ocr_text := some ocr_text
                              ocr_metadata := metadata_json }
      let note := { note with status := .ai_organizing
                              progress_message := some "[1/3] 필기 구조 분석 중..." }
      match detect with
      | .error e =>
        { note := { note with status := .failed, error_message := some e }
          err := none, savedWeak := [], savedCards := [] }
      | .ok d =>
        let note := { note with
          detected_subject := some ((subjectFromString d.detected_subject).getD .other)
          detected_note_type := some ((noteTypeFromString d.detected_note_type).getD .general) }
        let needs_confirmation := false
        if needs_confirmation then
          { note := { note with
              detection_cache := some
                { refined_text := d.refined_text
                  structureText := d.structureText
                  curriculum_context := d.curriculum_context
                  detected_subject := d.detected_subject
                  detected_note_type := d.detected_note_type
                  detected_unit := d.detected_unit }
              status := .confirmation_needed
              progress_message := some "오답노트로 변경할지 확인 필요" }
            err := none, savedWeak := [], savedCards := [] }
        else
          let r := continueProcessing note user d.detected_subject
            d.detected_unit dateStr gen weakOut cardOut
          match r.err with
          | some e =>
            { r with
              note := { r.note with status := .failed, error_message := some e }
              err := none }
          | none => r

/-- `process_note` (process.py lines 308–341): the `POST /process`
endpoint, after the 404 existence check.  Processing is refused with
HTTP 400 unless the status is `UPLOADING` or `FAILED`; otherwise the
pipeline runs synchronously.  Returns the error (if any) and the final
pipeline outcome. -/
def processNoteEndpoint (note : NoteRec) (user : Option UserRec)
    (dateStr : String) (ocr : Except String (String × Option String))
    (detect : Except String Detection) (gen : Except String String)
    (weakOut : Except String (List WeakConcept))
    (cardOut : Except String (List ConceptCard)) :
    Option HttpErr × PipelineOutcome :=
  if note.status = .uploading ∨ note.status = .failed then
    (none, processNotePipeline note user dateStr ocr detect gen weakOut cardOut)
  else
    (some { code := 400, detail := "현재 노트 상태에서는 처리할 수 없습니다." },
     { note := note, err := none, savedWeak := [], savedCards := [] })

/-- `reprocess_note` (process.py lines 344–467): the `POST /reprocess`
endpoint, after the 404 check.  Requires `ocr_text` to be populated
(Python truthiness: `None` and `""` are both refused); sets
`AI_ORGANIZING`; `organize` is the outcome of
`ai_service.organize_note`; on failure the note becomes `FAILED` (with
the stale `organized_content` untouched) and HTTP 500 is raised; on
success the detected fields, title and content are stored with
`COMPLETED`, and a weak-concept extraction wrapped in `try/except` runs
for pro users on a detected error note. -/
def reprocessEndpoint (note : NoteRec) (user : Option UserRec)
    (dateStr : String) (organize : Except String OrganizeResult)
    (weakOut : Except String (List WeakConcept)) :
    Option HttpErr × PipelineOutcome :=
  if note.ocr_text.getD "" = "" then
    (some { code := 400, detail := "OCR 텍스트가 없습니다. 전체 재처리가 필요합니다." },
     { note := note, err := none, savedWeak := [], savedCards := [] })
  else
    let note := { note with status := .ai_organizing }
    match organize with
    | .error e =>
      (some { code := 500, detail := "AI 재처리 실패: " ++ e },
       { note := { note with status := .failed, error_message := some e }
         err := none, savedWeak := [], savedCards := [] })
    | .ok r =>
      let note := { note with
        detected_subject := some ((subjectFromString r.detected_subject).getD .other)
        detected_note_type := some ((noteTypeFromString r.detected_note_type).getD .general)
        title := generateNoteTitle r.detected_subject r.detected_unit dateStr
        organized_content := some r.content
        status := .completed }
      let savedWeak :=
        if (user.map UserRec.plan) = some .pro ∧
            r.detected_note_type = "error_note" then
          match weakOut with
          | .ok ws => ws
          | .error _ => []
        else []
      (none, { note := note, err := none, savedWeak := savedWeak, savedCards := [] })

/-- `confirm_note_type` (process.py lines 470–541): the
`POST /confirm-type` endpoint, after the 404 check.  Requires
`status == CONFIRMATION_NEEDED` and a non-empty `detection_cache`
(HTTP 400 otherwise, and nothing runs); optionally switches the method
to `ERROR_NOTE`; resumes at `continue_processing` with the cached
classification; a failure there becomes `FAILED` plus HTTP 500. -/
def confirmEndpoint (note : NoteRec) (convert_to_error_note : Bool)
    (user : Option UserRec) (dateStr : String) (gen : Except String String)
    (weakOut : Except String (List WeakConcept))
    (cardOut : Except String (List ConceptCard)) :
    Option HttpErr × PipelineOutcome :=
  if note.status ≠ .confirmation_needed then
    (some { code := 400, detail := "확인 대기 상태가 아닙니다." },
     { note := note, err := none, savedWeak := [], savedCards := [] })
  else
    match note.detection_cache with
    | none =>
      (some { code := 400, detail := "감지 캐시가 없습니다." },
       { note := note, err := none, savedWeak := [], savedCards := [] })
    | some cache_data =>
      let note :=
        if convert_to_error_note then
          { note with organize_method := .error_note }
        else note
      let r := continueProcessing note user cache_data.detected_subject
        cache_data.detected_unit dateStr gen weakOut cardOut
      match r.err with
      | some e =>
        (some { code := 500, detail := "처리 실패: " ++ e },
         { r with
           note := { r.note with status := .failed, error_message := some e }
           err := none })
      | none => (none, r)

/-- The job-record invariant of spec §3: `organized_content` may be set
only in the `COMPLETED` state. -/
def JobInv (n : NoteRec) : Prop :=
  n.organized_content ≠ none → n.status = .completed

instance (n : NoteRec) : Decidable (JobInv n) := by
  unfold JobInv; infer_instance

/-! ### Concrete sample data (used by counterexamples and witnesses) -/

/-- A line spanning the full width and height of a 10×5 image. -/
def lineFull : Line :=
  { text := "a", x := 0, y := 0, w := 10, h := 5, cy := 2
    confidence := 1, word_count := 1 }

/-- A small line strictly inside a 100×50 image. -/
def lineSmall : Line :=
  { text := "a", x := 2, y := 3, w := 4, h := 5, cy := 5
    confidence := 1, word_count := 1 }

/-- A freshly uploaded note with the default `basic_summary` method. -/
def noteUploading : NoteRec :=
  { status := .uploading, organize_method := .basic_summary
    ocr_text := none, ocr_metadata := none, organized_content := none
    detection_cache := none, error_message := none, progress_message := none
    title := "", detected_subject := none, detected_note_type := none }

/-- A completed note with OCR text and organized content. -/
def noteCompleted : NoteRec :=
  { status := .completed, organize_method := .basic_summary
    ocr_text := some "t", ocr_metadata := none
    organized_content := some "c", detection_cache := none
    error_message := none, progress_message := none, title := ""
    detected_subject := none, detected_note_type := none }

/-- Six OCR words in a 1000×1000 image: five stacked rows forming one
tall block, then a sixth row after a large vertical gap.  Used to test
clustering idempotence. -/
def wordsIdem : List Word :=
  [ { text := "t1", x := 0, y := 0, w := 100, h := 10, cy := 5, confidence := 1 },
    { text := "t2", x := 0, y := 20, w := 100, h := 10, cy := 25, confidence := 1 },
    { text := "t3", x := 0, y := 40, w := 100, h := 10, cy := 45, confidence := 1 },
    { text := "t4", x := 0, y := 60, w := 100, h := 10, cy := 65, confidence := 1 },
    { text := "t5", x := 0, y := 80, w := 100, h := 10, cy := 85, confidence := 1 },
    { text := "t6", x := 0, y := 130, w := 100, h := 10, cy := 135, confidence := 1 } ]

/-- A classification outcome that detects an error note. -/
def detectionErrorNote : Detection :=
  { detected_subject := "math", detected_note_type := "error_note"
    detected_unit := "u", refined_text := "r", structureText := "s"
    curriculum_context := "" }

/-! ### Helper lemmas -/

theorem tdiv_scale_bounds {a D : Int} (h0 : 0 ≤ a) (h1 : a ≤ D)
    (hD : 0 < D) :
    0 ≤ Int.tdiv (a * 1000) D ∧ Int.tdiv (a * 1000) D ≤ 1000 := by
  have hnum : (0 : Int) ≤ a * 1000 := by positivity
  refine ⟨Int.tdiv_nonneg hnum hD.le, ?_⟩
  rw [Int.tdiv_eq_ediv hnum hD.le]
  have h2 : a * 1000 ≤ D * 1000 := by nlinarith
  calc a * 1000 / D ≤ D * 1000 / D := Int.ediv_le_ediv hD h2
    _ = 1000 := by rw [mul_comm]; exact Int.mul_ediv_cancel 1000 (ne_of_gt hD)

theorem insertOrd_length (le : α → α → Bool) (x : α) (l : List α) :
    (insertOrd le x l).length = l.length + 1 := by
  induction l with
  | nil => rfl
  | cons y ys ih =>
    simp only [insertOrd]
    split <;> simp [ih]

theorem pySorted_length (le : α → α → Bool) (l : List α) :
    (pySorted le l).length = l.length := by
  suffices h : ∀ acc : List α,
      (l.foldl (fun acc x => insertOrd le x acc) acc).length =
        acc.length + l.length by
    simpa [pySorted] using h []
  induction l with
  | nil => simp
  | cons x xs ih =>
    intro acc
    simp only [List.foldl_cons]
    rw [ih (insertOrd le x acc), insertOrd_length]
    simp only [List.length_cons]
    omega

theorem createLineFromWords_word_count (ws : List Word) :
    (createLineFromWords ws).word_count = ws.length := by
  simp [createLineFromWords, pySorted_length]

theorem getLastD_of_ne_nil {α : Type _} [Inhabited α] (l : List α)
    (h : l ≠ []) : l.getLastD default = l.getLast h := by
  rw [List.getLastD_eq_getLast?, List.getLast?_eq_getLast l h, Option.getD_some]

theorem intercalate_singleton (s a : String) : String.intercalate s [a] = a :=
  rfl

theorem mergeLoopW_word_count_sum (rest : List Word) :
    ∀ cur : List Word,
      ((mergeLoopW cur rest).map Line.word_count).sum =
        cur.length + rest.length := by
  induction rest with
  | nil =>
    intro cur
    simp [mergeLoopW, createLineFromWords_word_count]
  | cons word rest ih =>
    intro cur
    rw [mergeLoopW]
    split
    · rw [ih (cur ++ [word])]
      simp
      omega
    · simp only [List.map_cons, List.sum_cons, ih [word],
        createLineFromWords_word_count]
      simp
      omega

/-! ### C6: the word→line merge threshold -/

/-- C6: in the word-to-line merge, a word joins the current group
exactly when `|word.cy − last.cy| < 0.8 × averageHeight(group)`
(strictly); in particular at exact equality with the boundary the group
is closed and a new line is started. -/
theorem word_line_merge_threshold (cur : List Word) (word : Word)
    (rest : List Word) (h : cur ≠ []) :
    (mergeLoopW cur (word :: rest) =
      if |(word.cy : ℚ) - ((cur.getLast h).cy : ℚ)| <
          avgHeightW cur * (0.8 : ℚ) then
        mergeLoopW (cur ++ [word]) rest
      else
        createLineFromWords cur :: mergeLoopW [word] rest) ∧
    (|(word.cy : ℚ) - ((cur.getLast h).cy : ℚ)| =
        avgHeightW cur * (0.8 : ℚ) →
      mergeLoopW cur (word :: rest) =
        createLineFromWords cur :: mergeLoopW [word] rest) := by
  have hlast : cur.getLastD default = cur.getLast h := getLastD_of_ne_nil cur h
  constructor
  · rw [mergeLoopW, hlast]
  · intro heq
    rw [mergeLoopW, hlast, if_neg]
    rw [heq]
    exact lt_irrefl _

/-- Witness for C6: a single word of height 10 at `cy = 5` followed by a
word at `cy = 13` sits exactly at the `0.8 × 10` boundary, so the two
words end up on two separate lines. -/
theorem word_line_merge_threshold_witness :
    (([⟨"a", 0, 0, 10, 10, 5, 1⟩] : List Word) ≠ []) ∧
    mergeLoopW [⟨"a", 0, 0, 10, 10, 5, 1⟩] [⟨"b", 0, 8, 10, 10, 13, 1⟩] =
      [createLineFromWords [⟨"a", 0, 0, 10, 10, 5, 1⟩],
       createLineFromWords [⟨"b", 0, 8, 10, 10, 13, 1⟩]] := by
  refine ⟨by simp, ?_⟩
  have h := (word_line_merge_threshold [⟨"a", 0, 0, 10, 10, 5, 1⟩]
    ⟨"b", 0, 8, 10, 10, 13, 1⟩ [] (by simp)).2
  rw [h]
  · rfl
  · simp [avgHeightW]
    norm_num

/-! ### C7: the line→block merge condition -/

/-- C7: in the line-to-block merge, a line joins the current block iff
both the vertical gap is strictly below `2.0 × averageHeight(block)`
and the indentation difference is strictly below the fixed 100-pixel
threshold; if either fails the block is closed and a new one starts. -/
theorem line_block_merge_condition (imageWidth imageHeight : Int)
    (blocks : List Block) (cur : List Line) (line : Line)
    (rest : List Line) (h : cur ≠ []) :
    (((line.y - ((cur.getLast h).y + (cur.getLast h).h) : Int) : ℚ) <
        avgHeightL cur * (2 : ℚ) ∧
        |line.x - (cur.getLast h).x| < 100 →
      mergeLoopL imageWidth imageHeight blocks cur (line :: rest) =
        mergeLoopL imageWidth imageHeight blocks (cur ++ [line]) rest) ∧
    (¬ (((line.y - ((cur.getLast h).y + (cur.getLast h).h) : Int) : ℚ) <
          avgHeightL cur * (2 : ℚ) ∧
          |line.x - (cur.getLast h).x| < 100) →
      mergeLoopL imageWidth imageHeight blocks cur (line :: rest) =
        mergeLoopL imageWidth imageHeight
          (blocks ++ [createBlockFromLines cur blocks.length imageWidth imageHeight])
          [line] rest) := by
  have hlast : cur.getLastD default = cur.getLast h := getLastD_of_ne_nil cur h
  constructor
  · intro hcond
    rw [mergeLoopL, hlast, if_pos hcond]
  · intro hcond
    rw [mergeLoopL, hlast, if_neg hcond]

/-- Witness for C7: two lines of height 10 whose vertical gap is 5
(below `2 × 10`) but whose indentation differs by 200 pixels are split
into two blocks. -/
theorem line_block_merge_condition_witness :
    (([⟨"a", 0, 0, 50, 10, 5, 1, 1⟩] : List Line) ≠ []) ∧
    mergeLoopL 1000 1000 [] [⟨"a", 0, 0, 50, 10, 5, 1, 1⟩]
        [⟨"b", 200, 15, 50, 10, 20, 1, 1⟩] =
      mergeLoopL 1000 1000
        [createBlockFromLines [⟨"a", 0, 0, 50, 10, 5, 1, 1⟩] 0 1000 1000]
        [⟨"b", 200, 15, 50, 10, 20, 1, 1⟩] [] := by
  refine ⟨by simp, (line_block_merge_condition 1000 1000 []
    [⟨"a", 0, 0, 50, 10, 5, 1, 1⟩] ⟨"b", 200, 15, 50, 10, 20, 1, 1⟩ []
    (by simp)).2 ?_⟩
  intro hcond
  have h2 := hcond.2
  rw [List.getLast_singleton] at h2
  norm_num at h2

/-! ### C8: extraction failures never touch the completed result -/

/-- C8: once content generation has succeeded (the job reaches
`COMPLETED` with `organized_content` set in the same commit), failures
of the weak-concept and concept-card extraction calls are caught by
the surrounding `try/except` blocks: the job stays `COMPLETED`, its
content is exactly the generated text, and no exception escapes. -/
theorem extraction_failure_isolation (note : NoteRec) (user : Option UserRec)
    (subj unit dateStr content eWeak eCard : String) :
    ((continueProcessing note user subj unit dateStr (.ok content)
        (.error eWeak) (.error eCard)).note.status = .completed) ∧
    ((continueProcessing note user subj unit dateStr (.ok content)
        (.error eWeak) (.error eCard)).note.organized_content = some content) ∧
    ((continueProcessing note user subj unit dateStr (.ok content)
        (.error eWeak) (.error eCard)).err = none) :=
  ⟨rfl, rfl, rfl⟩

/-! ### C10: the word→line merge partitions its input -/

/-- C10: every input word is assigned to exactly one output line, so the
`word_count` fields of the produced lines sum to the number of input
words, and the empty input produces no lines. -/
theorem word_line_merge_partition :
    (∀ words : List Word,
      ((mergeWordsToLines words).map Line.word_count).sum = words.length) ∧
    mergeWordsToLines ([] : List Word) = [] := by
  constructor
  · intro words
    have hlen := pySorted_length wordKeyLe words
    unfold mergeWordsToLines
    cases hs : pySorted wordKeyLe words with
    | nil =>
      rw [hs] at hlen
      simp only [List.length_nil] at hlen
      rw [← hlen]
      rfl
    | cons w rest =>
      rw [hs] at hlen
      simp only [List.length_cons] at hlen
      rw [mergeLoopW_word_count_sum rest [w]]
      simp only [List.length_singleton]
      omega
  · rfl

/-! ### C2: range of the normalized bbox components -/

/-- Counterexample for C2: a block spanning the full image width (pixel
bbox `x = 0`, `x + w = imageWidth`, within bounds) gets normalized
width `int(w * 1000 / imageWidth) = 1000`, which is outside the claimed
half-open interval `[0, 1000)`. -/
theorem normalized_bbox_full_width_cex :
    ((0 : Int) ≤ lineFull.x ∧ lineFull.x + lineFull.w ≤ 10 ∧
      (0 : Int) ≤ lineFull.y ∧ lineFull.y + lineFull.h ≤ 5 ∧
      (0 : Int) < 10 ∧ (0 : Int) < 5) ∧
    (createBlockFromLines [lineFull] 0 10 5).w = 1000 ∧
    ¬ ((createBlockFromLines [lineFull] 0 10 5).w < 1000) := by
  refine ⟨by decide, rfl, by decide⟩

/-- C2 (amended): for a block whose pixel bbox lies within the image
bounds, every normalized component lies in the closed interval
`[0, 1000]` (the value 1000 is attained exactly when the bbox touches
the far edge, as the counterexample shows). -/
theorem normalized_bbox_closed_range (ls : List Line) (blockIdx : Nat)
    (W H : Int) (hW : 0 < W) (hH : 0 < H)
    (hx0 : 0 ≤ pyMin (ls.map Line.x))
    (hx1 : pyMax (ls.map fun l => l.x + l.w) ≤ W)
    (hxw : pyMin (ls.map Line.x) ≤ pyMax (ls.map fun l => l.x + l.w))
    (hy0 : 0 ≤ pyMin (ls.map Line.y))
    (hy1 : pyMax (ls.map fun l => l.y + l.h) ≤ H)
    (hyh : pyMin (ls.map Line.y) ≤ pyMax (ls.map fun l => l.y + l.h)) :
    (0 ≤ (createBlockFromLines ls blockIdx W H).x ∧
      (createBlockFromLines ls blockIdx W H).x ≤ 1000) ∧
    (0 ≤ (createBlockFromLines ls blockIdx W H).y ∧
      (createBlockFromLines ls blockIdx W H).y ≤ 1000) ∧
    (0 ≤ (createBlockFromLines ls blockIdx W H).w ∧
      (createBlockFromLines ls blockIdx W H).w ≤ 1000) ∧
    (0 ≤ (createBlockFromLines ls blockIdx W H).h ∧
      (createBlockFromLines ls blockIdx W H).h ≤ 1000) := by
  refine ⟨?_, ?_, ?_, ?_⟩
  · exact tdiv_scale_bounds hx0 (le_trans hxw hx1) hW
  · exact tdiv_scale_bounds hy0 (le_trans hyh hy1) hH
  · exact tdiv_scale_bounds (by omega) (by omega) hW
  · exact tdiv_scale_bounds (by omega) (by omega) hH

/-- Witness for C2 (amended) at a concrete in-bounds block. -/
theorem normalized_bbox_closed_range_witness :
    (0 : Int) ≤ pyMin ([lineSmall].map Line.x) ∧
    ((0 ≤ (createBlockFromLines [lineSmall] 0 100 50).x ∧
       (createBlockFromLines [lineSmall] 0 100 50).x ≤ 1000) ∧
     (0 ≤ (createBlockFromLines [lineSmall] 0 100 50).y ∧
       (createBlockFromLines [lineSmall] 0 100 50).y ≤ 1000) ∧
     (0 ≤ (createBlockFromLines [lineSmall] 0 100 50).w ∧
       (createBlockFromLines [lineSmall] 0 100 50).w ≤ 1000) ∧
     (0 ≤ (createBlockFromLines [lineSmall] 0 100 50).h ∧
       (createBlockFromLines [lineSmall] 0 100 50).h ≤ 1000)) :=
  ⟨by decide,
   normalized_bbox_closed_range [lineSmall] 0 100 50 (by decide) (by decide)
     (by decide) (by decide) (by decide) (by decide) (by decide) (by decide)⟩

/-! ### C4: classification parse-failure fallback -/

/-- Counterexample for C4: an empty classification response (not valid
JSON) whose finish reason is `"length"` makes
`_step1_analyze_structure` raise (`"1단계 토큰 한도 초과"`) instead of
returning the defaults, so the stage can raise on a response that is
not valid structured data. -/
theorem classification_truncated_empty_raises_cex :
    step1ParseResponse (some "") "length" (fun _ => none) =
      Except.error "1단계 토큰 한도 초과" ∧
    (fun _ => (none : Option Step1Parsed)) "" = none :=
  ⟨rfl, rfl⟩

/-- C4 (amended): for every non-blank classification response that the
JSON extraction fails to parse, the stage does not raise: it returns
the defaults `subject = "other"`, `note_type = "general"`,
`detected_unit = ""`, with the raw response text preserved in the
structure-summary field.  (A blank response instead yields the defaults
with an empty summary, except that finish reason `"length"` raises.) -/
theorem classification_parse_fallback (content finishReason : String)
    (parse : String → Option Step1Parsed)
    (hblank : ¬ pyStrip content = "")
    (hparse : parse content = none) :
    step1ParseResponse (some content) finishReason parse =
      .ok { subject := "other", note_type := "general"
            structureText := content, sections := [], grouping := ""
            detected_unit := "" } := by
  unfold step1ParseResponse
  simp only [Option.getD_some]
  rw [if_neg hblank, hparse]

/-- Witness for C4 (amended): a non-blank unparsable response. -/
theorem classification_parse_fallback_witness :
    ¬ pyStrip "x" = "" ∧
    step1ParseResponse (some "x") "stop" (fun _ => none) =
      .ok { subject := "other", note_type := "general"
            structureText := "x", sections := [], grouping := ""
            detected_unit := "" } :=
  ⟨by decide,
   classification_parse_fallback "x" "stop" (fun _ => none) (by decide) rfl⟩

/-! ### C5: precondition rejection of `confirmType` and `process` -/

/-- C5: `confirm_note_type` answers HTTP 400 with the job record
untouched (and runs no stage) whenever the status is not
`CONFIRMATION_NEEDED` or the checkpoint is empty, and `process_note`
answers HTTP 400 with the job record untouched whenever the status is
outside `{UPLOADING, FAILED}`; the rejection results do not depend on
any stage outcome. -/
theorem pipeline_precondition_rejection :
    (∀ (note : NoteRec) (cv : Bool) (user : Option UserRec)
        (dateStr : String) (gen : Except String String)
        (wk : Except String (List WeakConcept))
        (cd : Except String (List ConceptCard)),
      note.status ≠ .confirmation_needed →
      confirmEndpoint note cv user dateStr gen wk cd =
        (some { code := 400, detail := "확인 대기 상태가 아닙니다." },
         { note := note, err := none, savedWeak := [], savedCards := [] })) ∧
    (∀ (note : NoteRec) (cv : Bool) (user : Option UserRec)
        (dateStr : String) (gen : Except String String)
        (wk : Except String (List WeakConcept))
        (cd : Except String (List ConceptCard)),
      note.detection_cache = none →
      ((confirmEndpoint note cv user dateStr gen wk cd).1.map HttpErr.code =
        some 400) ∧
      (confirmEndpoint note cv user dateStr gen wk cd).2 =
        { note := note, err := none, savedWeak := [], savedCards := [] }) ∧
    (∀ (note : NoteRec) (user : Option UserRec) (dateStr : String)
        (ocr : Except String (String × Option String))
        (detect : Except String Detection) (gen : Except String String)
        (wk : Except String (List WeakConcept))
        (cd : Except String (List ConceptCard)),
      ¬ (note.status = .uploading ∨ note.status = .failed) →
      processNoteEndpoint note user dateStr ocr detect gen wk cd =
        (some { code := 400, detail := "현재 노트 상태에서는 처리할 수 없습니다." },
         { note := note, err := none, savedWeak := [], savedCards := [] })) := by
  refine ⟨?_, ?_, ?_⟩
  · intro note cv user dateStr gen wk cd h
    unfold confirmEndpoint
    rw [if_pos h]
  · intro note cv user dateStr gen wk cd h
    unfold confirmEndpoint
    by_cases hs : note.status ≠ .confirmation_needed
    · rw [if_pos hs]
      exact ⟨rfl, rfl⟩
    · rw [if_neg hs, h]
      exact ⟨rfl, rfl⟩
  · intro note user dateStr ocr detect gen wk cd h
    unfold processNoteEndpoint
    rw [if_neg h]

/-- Witness for C5 at a `COMPLETED` note: both endpoints refuse and
leave the record unchanged. -/
theorem pipeline_precondition_rejection_witness :
    (noteCompleted.status ≠ .confirmation_needed) ∧
    confirmEndpoint noteCompleted false none "d" (.ok "x") (.ok []) (.ok []) =
      (some { code := 400, detail := "확인 대기 상태가 아닙니다." },
       { note := noteCompleted, err := none, savedWeak := [], savedCards := [] }) ∧
    (¬ (noteCompleted.status = .uploading ∨ noteCompleted.status = .failed)) ∧
    processNoteEndpoint noteCompleted none "d" (.ok ("t", none)) (.error "e")
        (.ok "x") (.ok []) (.ok []) =
      (some { code := 400, detail := "현재 노트 상태에서는 처리할 수 없습니다." },
       { note := noteCompleted, err := none, savedWeak := [], savedCards := [] }) :=
  ⟨by decide,
   pipeline_precondition_rejection.1 noteCompleted false none "d" (.ok "x")
     (.ok []) (.ok []) (by decide),
   by decide,
   pipeline_precondition_rejection.2.2 noteCompleted none "d" (.ok ("t", none))
     (.error "e") (.ok "x") (.ok []) (.ok []) (by decide)⟩

/-! ### C1: the confirmation pause is disabled in the source -/

/-- Counterexample for C1: the canonical trigger — classification
detects `error_note` while the user selected a different method — does
not pause the pipeline: `needs_confirmation` is hard-coded `False`
(process.py lines 139–145, "V2까지 비활성화"), so the run proceeds
through content generation to `COMPLETED` and no checkpoint is
written. -/
theorem confirmation_pause_cex :
    detectionErrorNote.detected_note_type = "error_note" ∧
    noteUploading.organize_method ≠ OrganizeMethod.error_note ∧
    (processNotePipeline noteUploading none "d" (.ok ("t", none))
        (.ok detectionErrorNote) (.ok "content") (.ok []) (.ok [])).note.status =
      ProcessStatus.completed ∧
    (processNotePipeline noteUploading none "d" (.ok ("t", none))
        (.ok detectionErrorNote) (.ok "content") (.ok [])
        (.ok [])).note.detection_cache = none := by
  refine ⟨rfl, by decide, by decide, by decide⟩

/-- C1 (amended): the confirmation branch of `process_note_pipeline` is
dead code — for every classification outcome the pipeline proceeds
without pausing: the resulting status is never `CONFIRMATION_NEEDED`,
and the checkpoint field is never populated (it is either cleared or
left as it was). -/
theorem confirmation_branch_disabled (note : NoteRec) (user : Option UserRec)
    (dateStr : String) (ocr : Except String (String × Option String))
    (detect : Except String Detection) (gen : Except String String)
    (wk : Except String (List WeakConcept))
    (cd : Except String (List ConceptCard)) :
    (processNotePipeline note user dateStr ocr detect gen wk cd).note.status ≠
      ProcessStatus.confirmation_needed ∧
    ((processNotePipeline note user dateStr ocr detect gen wk cd).note.detection_cache
        = none ∨
     (processNotePipeline note user dateStr ocr detect gen wk cd).note.detection_cache
        = note.detection_cache) := by
  unfold processNotePipeline continueProcessing
  rcases ocr with e | ⟨t, m⟩
  · exact ⟨fun hc => ProcessStatus.noConfusion hc, Or.inr rfl⟩
  · dsimp only
    split
    · exact ⟨fun hc => ProcessStatus.noConfusion hc, Or.inr rfl⟩
    · rcases detect with e | d
      · exact ⟨fun hc => ProcessStatus.noConfusion hc, Or.inr rfl⟩
      · rcases gen with eg | c
        · exact ⟨fun hc => ProcessStatus.noConfusion hc, Or.inr rfl⟩
        · exact ⟨fun hc => ProcessStatus.noConfusion hc, Or.inl rfl⟩

/-! ### C3: the `organized_content`/status invariant -/

theorem processNotePipeline_JobInv (note : NoteRec) (user : Option UserRec)
    (dateStr : String) (ocr : Except String (String × Option String))
    (detect : Except String Detection) (gen : Except String String)
    (wk : Except String (List WeakConcept))
    (cd : Except String (List ConceptCard)) (h : JobInv note)
    (hs : note.status ≠ .completed) :
    JobInv (processNotePipeline note user dateStr ocr detect gen wk cd).note := by
  have hcontent : note.organized_content = none := by
    by_contra hc
    exact hs (h hc)
  unfold processNotePipeline continueProcessing
  rcases ocr with e | ⟨t, m⟩
  · intro hc; exact absurd hcontent hc
  · dsimp only
    split
    · intro hc; exact absurd hcontent hc
    · rcases detect with e | d
      · intro hc; exact absurd hcontent hc
      · rcases gen with eg | c
        · intro hc; exact absurd hcontent hc
        · intro _; rfl

theorem processNotePipeline_write (note : NoteRec) (user : Option UserRec)
    (dateStr : String) (ocr : Except String (String × Option String))
    (detect : Except String Detection) (gen : Except String String)
    (wk : Except String (List WeakConcept))
    (cd : Except String (List ConceptCard)) :
    (processNotePipeline note user dateStr ocr detect gen wk cd).note.organized_content
      ≠ note.organized_content →
    (processNotePipeline note user dateStr ocr detect gen wk cd).note.status =
      .completed := by
  unfold processNotePipeline continueProcessing
  rcases ocr with e | ⟨t, m⟩
  · intro hc; exact absurd rfl hc
  · dsimp only
    split
    · intro hc; exact absurd rfl hc
    · rcases detect with e | d
      · intro hc; exact absurd rfl hc
      · rcases gen with eg | c
        · intro hc; exact absurd rfl hc
        · intro _; rfl

/-- Counterexample for C3: a failed `reprocess` of a `COMPLETED` note
leaves the stale `organized_content` in place while the status becomes
`FAILED`, so reprocessing does not preserve the claimed invariant. -/
theorem failed_reprocess_invariant_cex :
    JobInv noteCompleted ∧
    (reprocessEndpoint noteCompleted none "d" (.error "boom")
      (.ok [])).2.note.status = ProcessStatus.failed ∧
    (reprocessEndpoint noteCompleted none "d" (.error "boom")
      (.ok [])).2.note.organized_content = some "c" ∧
    ¬ JobInv (reprocessEndpoint noteCompleted none "d" (.error "boom")
        (.ok [])).2.note := by
  refine ⟨by decide, by decide, by decide, by decide⟩

/-- C3 (amended): `process` and `confirmType` preserve the invariant
that `organized_content` is set only in the `COMPLETED` state, and all
three operations write `organized_content` only in the same transition
that sets `COMPLETED`; `reprocess`, however, does not clear a stale
`organized_content` when it fails (see the counterexample), so it only
satisfies the write-discipline half. -/
theorem organized_content_write_discipline :
    (∀ (note : NoteRec) (user : Option UserRec) (dateStr : String)
        (ocr : Except String (String × Option String))
        (detect : Except String Detection) (gen : Except String String)
        (wk : Except String (List WeakConcept))
        (cd : Except String (List ConceptCard)),
      JobInv note →
      JobInv (processNoteEndpoint note user dateStr ocr detect gen wk cd).2.note) ∧
    (∀ (note : NoteRec) (cv : Bool) (user : Option UserRec) (dateStr : String)
        (gen : Except String String) (wk : Except String (List WeakConcept))
        (cd : Except String (List ConceptCard)),
      JobInv note →
      JobInv (confirmEndpoint note cv user dateStr gen wk cd).2.note) ∧
    (∀ (note : NoteRec) (user : Option UserRec) (dateStr : String)
        (org : Except String OrganizeResult)
        (wk : Except String (List WeakConcept)),
      (reprocessEndpoint note user dateStr org wk).2.note.organized_content ≠
        note.organized_content →
      (reprocessEndpoint note user dateStr org wk).2.note.status = .completed) ∧
    (∀ (note : NoteRec) (user : Option UserRec) (dateStr : String)
        (ocr : Except String (String × Option String))
        (detect : Except String Detection) (gen : Except String String)
        (wk : Except String (List WeakConcept))
        (cd : Except String (List ConceptCard)),
      (processNoteEndpoint note user dateStr ocr detect gen wk cd).2.note.organized_content
        ≠ note.organized_content →
      (processNoteEndpoint note user dateStr ocr detect gen wk cd).2.note.status =
        .completed) ∧
    (∀ (note : NoteRec) (cv : Bool) (user : Option UserRec) (dateStr : String)
        (gen : Except String String) (wk : Except String (List WeakConcept))
        (cd : Except String (List ConceptCard)),
      (confirmEndpoint note cv user dateStr gen wk cd).2.note.organized_content ≠
        note.organized_content →
      (confirmEndpoint note cv user dateStr gen wk cd).2.note.status =
        .completed) := by
  refine ⟨?_, ?_, ?_, ?_, ?_⟩
  · -- process preserves the invariant
    intro note user dateStr ocr detect gen wk cd h
    unfold processNoteEndpoint
    split
    · rename_i hpre
      exact processNotePipeline_JobInv note user dateStr ocr detect gen wk cd h
        (by rcases hpre with h1 | h1 <;> rw [h1] <;>
          exact fun hc => ProcessStatus.noConfusion hc)
    · exact h
  · -- confirmType preserves the invariant
    intro note cv user dateStr gen wk cd h
    unfold confirmEndpoint
    split
    · exact h
    · rename_i hs
      rw [not_not] at hs
      have hcontent : note.organized_content = none := by
        by_contra hc
        have := h hc
        rw [hs] at this
        exact ProcessStatus.noConfusion this
      cases hcache : note.detection_cache with
      | none => exact h
      | some cache =>
        unfold continueProcessing
        cases cv <;> dsimp only <;>
          rcases gen with eg | c
        · intro hc; exact absurd hcontent hc
        · intro _; rfl
        · intro hc; exact absurd hcontent hc
        · intro _; rfl
  · -- reprocess writes content only with COMPLETED
    intro note user dateStr org wk
    unfold reprocessEndpoint
    split
    · intro hc; exact absurd rfl hc
    · rcases org with e | r
      · intro hc; exact absurd rfl hc
      · intro _; rfl
  · -- process writes content only with COMPLETED
    intro note user dateStr ocr detect gen wk cd
    unfold processNoteEndpoint
    split
    · exact processNotePipeline_write note user dateStr ocr detect gen wk cd
    · intro hc; exact absurd rfl hc
  · -- confirmType writes content only with COMPLETED
    intro note cv user dateStr gen wk cd
    unfold confirmEndpoint
    split
    · intro hc; exact absurd rfl hc
    · cases hcache : note.detection_cache with
      | none => intro hc; exact absurd rfl hc
      | some cache =>
        unfold continueProcessing
        cases cv <;> dsimp only <;>
          rcases gen with eg | c
        · intro hc; exact absurd rfl hc
        · intro _; rfl
        · intro hc; exact absurd rfl hc
        · intro _; rfl

/-- Witness for C3 (amended): the invariant-preservation conjunct at a
fresh note whose pipeline run fails, and the reprocess write-discipline
conjunct at a completed note that is successfully reprocessed. -/
theorem organized_content_write_discipline_witness :
    JobInv noteUploading ∧
    JobInv (processNoteEndpoint noteUploading none "d" (.error "e")
      (.error "e2") (.ok "x") (.ok []) (.ok [])).2.note ∧
    ((reprocessEndpoint noteCompleted none "d"
        (.ok { content := "newc", detected_subject := "math"
               detected_note_type := "general", detected_unit := "u" })
        (.ok [])).2.note.organized_content ≠ noteCompleted.organized_content) ∧
    (reprocessEndpoint noteCompleted none "d"
        (.ok { content := "newc", detected_subject := "math"
               detected_note_type := "general", detected_unit := "u" })
        (.ok [])).2.note.status = ProcessStatus.completed :=
  ⟨by decide,
   organized_content_write_discipline.1 noteUploading none "d" (.error "e")
     (.error "e2") (.ok "x") (.ok []) (.ok []) (by decide),
   by decide,
   organized_content_write_discipline.2.2.1 noteCompleted none "d"
     (.ok { content := "newc", detected_subject := "math"
            detected_note_type := "general", detected_unit := "u" })
     (.ok []) (by decide)⟩

/-! ### C9: clustering is not idempotent -/

/-- Counterexample for C9: `wordsIdem` clusters into two blocks (five
stacked rows, then a row after a 40-pixel gap, which exceeds
`2 × averageLineHeight = 20`).  Flattening each block into a single
word spanning its bbox and re-clustering yields **one** block: the
flattened first block is 90 pixels tall, so the same 40-pixel gap is
now far below `2 × 90`, and the two flattened words merge.  The block
set is therefore not a fixed point of re-clustering. -/
theorem clustering_idempotence_cex :
    (mergeLinesToBlocks (mergeWordsToLines wordsIdem) 1000 1000).length = 2 ∧
    (mergeLinesToBlocks
        (mergeWordsToLines
          ((mergeLinesToBlocks (mergeWordsToLines wordsIdem) 1000 1000).map
            blockToWord)) 1000 1000).length = 1 := by
  have f1 : Int.fdiv 10 2 = 5 := by decide
  have f2 : Int.fdiv 50 2 = 25 := by decide
  have f3 : Int.fdiv 90 2 = 45 := by decide
  have f4 : Int.fdiv 130 2 = 65 := by decide
  have f5 : Int.fdiv 170 2 = 85 := by decide
  have f6 : Int.fdiv 270 2 = 135 := by decide
  have t0 : Int.tdiv 0 1000 = 0 := by decide
  have t1 : Int.tdiv 100000 1000 = 100 := by decide
  have t2 : Int.tdiv 90000 1000 = 90 := by decide
  have t3 : Int.tdiv 130000 1000 = 130 := by decide
  have t4 : Int.tdiv 10000 1000 = 10 := by decide
  have i0 : ("b" ++ toString (0 : Nat) : String) = "b0" := by decide
  have i1 : ("b" ++ toString (1 : Nat) : String) = "b1" := by decide
  have htext : String.intercalate "\n" ["t1", "t2", "t3", "t4", "t5"] =
      "t1\nt2\nt3\nt4\nt5" := rfl
  have h1 : mergeWordsToLines wordsIdem =
      [ { text := "t1", x := 0, y := 0, w := 100, h := 10, cy := 5,
          confidence := 1, word_count := 1 },
        { text := "t2", x := 0, y := 20, w := 100, h := 10, cy := 25,
          confidence := 1, word_count := 1 },
        { text := "t3", x := 0, y := 40, w := 100, h := 10, cy := 45,
          confidence := 1, word_count := 1 },
        { text := "t4", x := 0, y := 60, w := 100, h := 10, cy := 65,
          confidence := 1, word_count := 1 },
        { text := "t5", x := 0, y := 80, w := 100, h := 10, cy := 85,
          confidence := 1, word_count := 1 },
        { text := "t6", x := 0, y := 130, w := 100, h := 10, cy := 135,
          confidence := 1, word_count := 1 } ] := by
    norm_num [wordsIdem, mergeWordsToLines, pySorted, insertOrd, wordKeyLe,
      mergeLoopW, avgHeightW, createLineFromWords, wordXLe, pyMin, pyMax,
      List.getLastD, abs_lt, intercalate_singleton, f1, f2, f3, f4, f5, f6]
  have h2 : mergeLinesToBlocks (mergeWordsToLines wordsIdem) 1000 1000 =
      [ { id := "b0", x := 0, y := 0, w := 100, h := 90,
          text := "t1\nt2\nt3\nt4\nt5", confidence := 1, line_count := 5 },
        { id := "b1", x := 0, y := 130, w := 100, h := 10,
          text := "t6", confidence := 1, line_count := 1 } ] := by
    rw [h1]
    norm_num [mergeLinesToBlocks, pySorted, insertOrd, lineYLe, mergeLoopL,
      avgHeightL, createBlockFromLines, pyMin, pyMax, pyRound3, pyRoundHalfEven,
      List.getLastD, intercalate_singleton, t0, t1, t2, t3, t4, i0, i1, htext]
  have h3 : (mergeLinesToBlocks (mergeWordsToLines wordsIdem) 1000 1000).map
        blockToWord =
      [ { text := "t1\nt2\nt3\nt4\nt5", x := 0, y := 0, w := 100, h := 90,
          cy := 45, confidence := 1 },
        { text := "t6", x := 0, y := 130, w := 100, h := 10, cy := 135,
          confidence := 1 } ] := by
    rw [h2]
    norm_num [blockToWord, f1, f3]
  have h4 : mergeWordsToLines
        ((mergeLinesToBlocks (mergeWordsToLines wordsIdem) 1000 1000).map
          blockToWord) =
      [ { text := "t1\nt2\nt3\nt4\nt5", x := 0, y := 0, w := 100, h := 90,
          cy := 45, confidence := 1, word_count := 1 },
        { text := "t6", x := 0, y := 130, w := 100, h := 10, cy := 135,
          confidence := 1, word_count := 1 } ] := by
    rw [h3]
    norm_num [mergeWordsToLines, pySorted, insertOrd, wordKeyLe, mergeLoopW,
      avgHeightW, createLineFromWords, wordXLe, pyMin, pyMax, List.getLastD,
      abs_lt, intercalate_singleton, f3, f6]
  refine ⟨by rw [h2]; rfl, ?_⟩
  rw [h4]
  norm_num [mergeLinesToBlocks, pySorted, insertOrd, lineYLe, mergeLoopL,
    avgHeightL, List.getLastD]

/-- C9 (amended): re-clustering is a fixed point for a **single**
flattened block in the fixed 1000×1000 normalized space: the result is
again exactly one block with the same bbox and the same text (the id,
line count and confidence rounding are re-derived by the algorithm).
For two or more blocks idempotence fails, because flattening replaces
the line heights by the whole block height (see the counterexample). -/
theorem single_block_recluster_fixed (b : Block) :
    mergeLinesToBlocks (mergeWordsToLines [blockToWord b]) 1000 1000 =
      [ { id := "b0", x := b.x, y := b.y, w := b.w, h := b.h,
          text := b.text, confidence := pyRound3 b.confidence,
          line_count := 1 } ] := by
  have hw : ∀ a : Int, Int.tdiv (a * 1000) 1000 = a := fun a =>
    Int.mul_tdiv_cancel a (by norm_num)
  have i0 : ("b" ++ toString (0 : Nat) : String) = "b0" := by decide
  simp [mergeWordsToLines, pySorted, insertOrd, mergeLoopW, mergeLinesToBlocks,
    lineYLe, mergeLoopL, createLineFromWords, createBlockFromLines, blockToWord,
    wordXLe, pyMin, pyMax, intercalate_singleton, List.getLastD, hw,
    avgHeightL, avgHeightW, i0]

end NoteGen
